import Mathlib

/-!
# Notion status counter (`api/notion-counts.js`)

A shallow embedding of the serverless `handler` and the properties its specification states.

The handler is JavaScript, so the embedding carries the part of the language's semantics the
handler relies on:

* `Json` is a value produced by `JSON.parse`; `JsVal` adds `undefined` and the members a property
  read can reach on `Object.prototype`.
* A property read (`getProp`) finds own properties first and then the names every object inherits
  from `Object.prototype`.
* `truthy` is the test behind `||`, `!` and `? :`.
* `toPropertyKey` is the conversion `counts[statusName]` applies to its subscript; it raises a
  `TypeError` for an object whose own `toString` hides the inherited one.
* The remote service is a script `Nat → FetchOutcome`: the answer to the k-th `fetch` (from 0).
  The `while (true)` loop is run with fuel, one unit per request.
* What the engine words itself (messages of its own `TypeError`s, the source text of a native
  function, the clock) is a parameter, `Runtime`.

Boundaries of the model: JSON numbers are integers (the handler tests them for truthiness and
uses them as property keys, it never computes with them); tallies are natural numbers (exact in
a double below 2^53); exceptions are `Error` objects with a name and a message; the headers of
a response are those the handler sets itself with `setHeader`.

The definitions come first: values, the tally, requests and responses, the handler, the
vocabulary used to speak about pages, and sample inputs. The theorems follow, grouped as in
the specification: method gating, authorization, configuration, terminal states, headers,
pagination, resolution of the status label, and the tally.
-/

namespace NotionCounts

/-! ## Values -/

/-- A value produced by `JSON.parse`. Objects keep their members in insertion order. -/
inductive Json where
  | null
  | bool (b : Bool)
  | num (n : Int)
  | str (s : String)
  | arr (xs : List Json)
  | obj (kvs : List (String × Json))

/-- A JavaScript value the handler can hold: a JSON value, `undefined`, or a member inherited
from `Object.prototype` (a native function, or the prototype object itself for `__proto__`),
identified by the name it was read under. -/
inductive JsVal where
  | undefined
  | builtin (name : String)
  | json (j : Json)

/-- An `Error` object: what `fetch`, `Response.json` and the language itself raise. -/
structure JsError where
  name : String
  message : String

/-- What the engine rather than the handler decides. -/
structure Runtime where
  /-- Value of `new Date().toISOString()` at the time the handler completes. -/
  now : String
  /-- Value of `String(f)` for the native function stored under a name of `Object.prototype`. -/
  nativeSource : String → String
  /-- Message of the `TypeError` for reading a property of `null`. -/
  nullReadMessage : String
  /-- Message of the `TypeError` for `for ... of` over a value that is not iterable. -/
  notIterableMessage : String
  /-- Message of the `TypeError` for an object that has no primitive form. -/
  toPrimitiveMessage : String

/-- The names every ordinary object inherits from `Object.prototype`. -/
def objectProtoKeys : List String :=
  ["constructor", "__defineGetter__", "__defineSetter__", "hasOwnProperty",
   "__lookupGetter__", "__lookupSetter__", "isPrototypeOf", "propertyIsEnumerable",
   "toString", "valueOf", "__proto__", "toLocaleString"]

/-- The own value stored under `k` in an object's member list. -/
def lookupOwn {α : Type} (k : String) : List (String × α) → Option α
  | [] => none
  | (k', v) :: rest => if k' = k then some v else lookupOwn k rest

/-- The element of an array whose index, written in decimal, is `k`. -/
def lookupIndex (k : String) : List Json → Nat → Option Json
  | [], _ => none
  | x :: rest, i => if toString i = k then some x else lookupIndex k rest (i + 1)

/-- A name found on `Object.prototype`, or `undefined`. -/
def inheritedProp (k : String) : JsVal :=
  if k ∈ objectProtoKeys then .builtin k else .undefined

/-- The optional-chaining read `v?.[k]`: `undefined` for `undefined` and `null`; for an object
its own member, else the member inherited from `Object.prototype`; for an array an element or
its length. Own code units of strings, the methods of `Array.prototype`, `String.prototype`,
`Number.prototype` and `Boolean.prototype`, and the members of a native function are not
tabulated: they can only come out of the read under `STATUS_PROP`, the handler reads only
`status` and `select` off that result, and none of them has either. -/
def getProp (v : JsVal) (k : String) : JsVal :=
  match v with
  | .undefined => .undefined
  | .builtin _ => .undefined
  | .json .null => .undefined
  | .json (.obj kvs) =>
    match lookupOwn k kvs with
    | some x => .json x
    | none => inheritedProp k
  | .json (.arr xs) =>
    match lookupIndex k xs 0 with
    | some x => .json x
    | none => if k = "length" then .json (.num xs.length) else inheritedProp k
  | .json _ => inheritedProp k

/-- JavaScript truthiness: `undefined`, `null`, `false`, `0` and `""` are falsy. -/
def truthy : JsVal → Bool
  | .undefined => false
  | .builtin _ => true
  | .json .null => false
  | .json (.bool b) => b
  | .json (.num n) => n != 0
  | .json (.str s) => s != ""
  | .json _ => true

/-- The operator `a || b`. -/
def jsOr (a b : JsVal) : JsVal := if truthy a then a else b

mutual
/-- The conversion `String(j)` of a JSON value, `none` when the conversion raises a `TypeError`: an object
converts through the inherited `toString` unless an own (never callable) `toString` hides it;
an array joins its elements with commas. -/
def Json.toStr : Json → Option String
  | .null => some "null"
  | .bool b => some (if b then "true" else "false")
  | .num n => some (toString n)
  | .str s => some s
  | .arr xs => Json.joinElems xs
  | .obj kvs => if (lookupOwn "toString" kvs).isSome then none else some "[object Object]"
/-- The body of `Array.prototype.join` with the separator `","`: a `null` element contributes
the empty string. -/
def Json.joinElems : List Json → Option String
  | [] => some ""
  | x :: rest =>
    let head := match x with
      | .null => some ""
      | _ => Json.toStr x
    match rest with
    | [] => head
    | _ :: _ =>
      match head, Json.joinElems rest with
      | some a, some b => some (a ++ "," ++ b)
      | _, _ => none
end

/-- The property key a subscript converts to, `none` when the conversion raises. -/
def toPropertyKey (rt : Runtime) : JsVal → Option String
  | .undefined => some "undefined"
  | .builtin k => some (if k = "__proto__" then "[object Object]" else rt.nativeSource k)
  | .json j => j.toStr

/-! ## The tally -/

/-- A value stored in `counts`: a number, or the string an increment of an inherited member
leaves behind. -/
inductive CountVal where
  | num (n : Nat)
  | str (s : String)
deriving DecidableEq, Repr

/-- The `counts` object: its own members in insertion order. Its prototype is
`Object.prototype`. -/
abbrev Counts := List (String × CountVal)

/-- The vocabulary of the handler. -/
def STATUSES : List String := ["Queue", "In Progress", "Past Due", "Blocked", "Completed"]

/-- The object of line 41: `Object.fromEntries(STATUSES.map(s => [s, 0]))`. -/
def initialCounts : Counts := STATUSES.map fun s => (s, CountVal.num 0)

/-- The conversion `String(v)` of a stored value. -/
def CountVal.render : CountVal → String
  | .num n => toString n
  | .str s => s

/-- The operator `a + b` on stored values: addition of two numbers, concatenation otherwise. -/
def jsAdd : CountVal → CountVal → CountVal
  | .num a, .num b => .num (a + b)
  | a, b => .str (a.render ++ b.render)

/-- The test `counts[k] !== undefined`: an own member, or a name of `Object.prototype`. -/
def isDefined (counts : Counts) (k : String) : Bool :=
  (lookupOwn k counts).isSome || decide (k ∈ objectProtoKeys)

/-- Replace the own member `k` by `f` of its value, keeping its place. -/
def updateOwn (k : String) (f : CountVal → CountVal) : Counts → Counts
  | [] => []
  | (k', v) :: rest => if k' = k then (k', f v) :: rest else (k', v) :: updateOwn k f rest

/-- The statement `counts[k] += 1` for a key that passed `isDefined`. An own member is
incremented. An inherited native function is read, concatenated with `1` and stored as a new
own member. `__proto__` is an accessor whose setter ignores a string. -/
def increment (rt : Runtime) (counts : Counts) (k : String) : Counts :=
  match lookupOwn k counts with
  | some _ => updateOwn k (fun v => jsAdd v (.num 1)) counts
  | none =>
    if k = "__proto__" then counts
    else counts ++ [(k, CountVal.str (rt.nativeSource k ++ "1"))]

/-- The label the handler resolves for one record:
`prop?.status?.name || prop?.select?.name || "Unknown"` with
`prop = page?.properties?.[STATUS_PROP]`. -/
def statusNameOf (STATUS_PROP : String) (page : Json) : JsVal :=
  let prop := getProp (getProp (.json page) "properties") STATUS_PROP
  jsOr (jsOr (getProp (getProp prop "status") "name") (getProp (getProp prop "select") "name"))
    (.json (.str "Unknown"))

/-- The statement `if (counts[statusName] !== undefined) counts[statusName] += 1`. -/
def tallyRecord (rt : Runtime) (counts : Counts) (statusName : JsVal) : Except JsError Counts :=
  match toPropertyKey rt statusName with
  | none => .error ⟨"TypeError", rt.toPrimitiveMessage⟩
  | some k => .ok (if isDefined counts k then increment rt counts k else counts)

/-- The body of the `for ... of` loop run over the records of one page. -/
def tallyRecords (rt : Runtime) (STATUS_PROP : String) : List Json → Counts → Except JsError Counts
  | [], counts => .ok counts
  | page :: rest, counts =>
    match tallyRecord rt counts (statusNameOf STATUS_PROP page) with
    | .error e => .error e
    | .ok counts' => tallyRecords rt STATUS_PROP rest counts'

/-- The values `for (const page of v || [])` visits: the elements of an array, the code points
of a string; any other truthy value is not iterable. -/
def iterate (rt : Runtime) (v : JsVal) : Except JsError (List Json) :=
  match jsOr v (.json (.arr [])) with
  | .json (.arr xs) => .ok xs
  | .json (.str s) => .ok (s.toList.map fun c => Json.str (String.singleton c))
  | _ => .error ⟨"TypeError", rt.notIterableMessage⟩

/-- Lines 74 to 84 for one parsed response body: read `data.results` (a `TypeError` when `data`
is `null`) and tally its records. -/
def tallyPage (rt : Runtime) (STATUS_PROP : String) (data : Json) (counts : Counts) :
    Except JsError Counts :=
  match data with
  | .null => .error ⟨"TypeError", rt.nullReadMessage⟩
  | _ =>
    match iterate rt (getProp (.json data) "results") with
    | .error e => .error e
    | .ok pages => tallyRecords rt STATUS_PROP pages counts

/-! ## Requests and responses -/

/-- The environment variables the handler reads (`process.env`): each is a string or unset. -/
structure Env where
  SHARED_KEY : Option String
  NOTION_TOKEN : Option String
  DATABASE_ID : Option String
  STATUS_PROP : Option String

/-- The value of `req.query.key`: absent, one string, or an array when the parameter is
repeated. -/
inductive QueryParam where
  | absent
  | single (value : String)
  | repeated (values : List String)

/-- The inbound request, as far as the handler reads it. -/
structure Req where
  method : String
  key : QueryParam

/-- One call of `fetch`: the URL and the options object, the body before `JSON.stringify`. -/
structure FetchRequest where
  url : String
  method : String
  headers : List (String × String)
  page_size : Nat
  start_cursor : Option JsVal

/-- The `Response` a resolved `fetch` yields, as far as the handler reads it. -/
structure NotionRes where
  ok : Bool
  status : Nat
  /-- The result of `notionRes.text()`, `none` when it rejects. -/
  text : Option String
  /-- The result of `notionRes.json()`, an error when it rejects. -/
  json : Except JsError Json

/-- What one call of `fetch` comes to. -/
inductive FetchOutcome where
  | rejected (err : JsError)
  | resolved (res : NotionRes)

/-- What the handler sends: the status, the headers it set with `setHeader` in order, and the
JSON body (`none` for `end()`). -/
structure Response where
  status : Nat
  headers : List (String × String)
  body : Option Json

/-- A terminated run of the handler: the response and the `fetch` calls issued, in order. -/
structure Run where
  response : Response
  requests : List FetchRequest

/-- Truthiness of an environment variable: set and not empty. -/
def isSet : Option String → Bool
  | some s => s != ""
  | none => false

/-- The test `req.query.key !== secret`. -/
def keyDiffers (key : QueryParam) (secret : String) : Bool :=
  match key with
  | .single value => value != secret
  | _ => true

/-- The shared-key check of lines 16 to 20 rejects the request. -/
def rejectsKey (env : Env) (req : Req) : Bool :=
  isSet env.SHARED_KEY && keyDiffers req.key (env.SHARED_KEY.getD "")

/-- The request reaches the `try` block of line 48: a GET that passes the key check with both
credentials set. -/
def entersLoop (env : Env) (req : Req) : Bool :=
  decide (req.method = "GET") && !rejectsKey env req && isSet env.NOTION_TOKEN &&
    isSet env.DATABASE_ID

/-- The property name of line 32: `process.env.STATUS_PROP || "Status"`. -/
def statusProp (env : Env) : String :=
  if isSet env.STATUS_PROP then env.STATUS_PROP.getD "" else "Status"

/-- The headers of lines 5 to 7. -/
def corsHeaders : List (String × String) :=
  [("Access-Control-Allow-Origin", "*"),
   ("Access-Control-Allow-Methods", "GET,OPTIONS"),
   ("Access-Control-Allow-Headers", "Content-Type")]

/-- The header of line 25. -/
def cacheHeader : String × String := ("Cache-Control", "s-maxage=10, stale-while-revalidate=30")

/-- The request of lines 50 to 61 for the current `start_cursor`. -/
def queryRequest (NOTION_TOKEN DATABASE_ID : String) (start_cursor : JsVal) : FetchRequest :=
  { url := "https://api.notion.com/v1/databases/" ++ DATABASE_ID ++ "/query"
    method := "POST"
    headers := [("Authorization", "Bearer " ++ NOTION_TOKEN),
                ("Notion-Version", "2022-06-28"),
                ("Content-Type", "application/json")]
    page_size := 100
    start_cursor := if truthy start_cursor then some start_cursor else none }

/-- How the `try` block ends. -/
inductive LoopResult where
  /-- The early `return` of lines 63 to 70. -/
  | upstreamFailed (status : Nat) (detail : String)
  /-- The `break` of line 86, with the tally. -/
  | finished (counts : Counts)
  /-- An exception, which the `catch` of line 97 receives. -/
  | threw (err : JsError)

/-- The `while (true)` loop of lines 49 to 88 from its `i`-th request on, with the requests it
issues. One unit of fuel is one iteration; `none` is a loop still running when the fuel is
spent. -/
def paginate (rt : Runtime) (upstream : Nat → FetchOutcome)
    (NOTION_TOKEN DATABASE_ID STATUS_PROP : String) :
    Nat → Nat → JsVal → Counts → Option (LoopResult × List FetchRequest)
  | 0, _, _, _ => none
  | fuel + 1, i, start_cursor, counts =>
    let request := queryRequest NOTION_TOKEN DATABASE_ID start_cursor
    match upstream i with
    | .rejected err => some (.threw err, [request])
    | .resolved notionRes =>
      if !notionRes.ok then
        some (.upstreamFailed notionRes.status (notionRes.text.getD ""), [request])
      else
        match notionRes.json with
        | .error err => some (.threw err, [request])
        | .ok data =>
          match tallyPage rt STATUS_PROP data counts with
          | .error err => some (.threw err, [request])
          | .ok counts' =>
            if !truthy (getProp (.json data) "has_more") then
              some (.finished counts', [request])
            else
              match paginate rt upstream NOTION_TOKEN DATABASE_ID STATUS_PROP fuel (i + 1)
                  (getProp (.json data) "next_cursor") counts' with
              | none => none
              | some (result, requests) => some (result, request :: requests)

/-- The stored value as JSON. -/
def CountVal.toJson : CountVal → Json
  | .num n => .num n
  | .str s => .str s

/-- The `counts` object as JSON. -/
def countsJson (counts : Counts) : Json :=
  .obj (counts.map fun kv => (kv.1, kv.2.toJson))

/-- The total of line 90: `Object.values(counts).reduce((a, b) => a + b, 0)`. -/
def totalOf (counts : Counts) : CountVal :=
  (counts.map Prod.snd).foldl jsAdd (.num 0)

/-- The detail of line 98: `String(err?.message || err)`. An `Error` with an empty message
converts through `Error.prototype.toString`, which then yields its name. -/
def errorDetail (err : JsError) : String :=
  if err.message != "" then err.message else err.name

/-- The body `{ error }`. -/
def errorBody (error : String) : Json := .obj [("error", .str error)]

/-- The response the `try` block and its `catch` make of the loop's result. -/
def respond (rt : Runtime) (headers : List (String × String)) : LoopResult → Response
  | .upstreamFailed status detail =>
    { status := 500, headers := headers
      body := some (.obj [("error", .str "Notion query failed"), ("status", .num status),
                          ("detail", .str detail)]) }
  | .finished counts =>
    { status := 200, headers := headers
      body := some (.obj [("counts", countsJson counts), ("total", (totalOf counts).toJson),
                          ("updatedAt", .str rt.now)]) }
  | .threw err =>
    { status := 500, headers := headers
      body := some (.obj [("error", .str "Server error"), ("detail", .str (errorDetail err))]) }

/-- The exported `handler`. `none` is a run whose loop is still going when the fuel is spent. -/
def handler (rt : Runtime) (env : Env) (req : Req) (upstream : Nat → FetchOutcome)
    (fuel : Nat) : Option Run :=
  if req.method = "OPTIONS" then
    some { response := { status := 200, headers := corsHeaders, body := none }, requests := [] }
  else if req.method ≠ "GET" then
    some { response := { status := 405, headers := corsHeaders
                         body := some (errorBody "Method not allowed") }, requests := [] }
  else if rejectsKey env req then
    some { response := { status := 401, headers := corsHeaders
                         body := some (errorBody "Unauthorized") }, requests := [] }
  else
    let headers := corsHeaders ++ [cacheHeader]
    let NOTION_TOKEN := env.NOTION_TOKEN.getD ""
    let DATABASE_ID := env.DATABASE_ID.getD ""
    let STATUS_PROP := statusProp env
    if !isSet env.NOTION_TOKEN || !isSet env.DATABASE_ID then
      some { response := { status := 500, headers := headers
                           body := some (errorBody "Missing NOTION_TOKEN or DATABASE_ID env vars") },
             requests := [] }
    else
      match paginate rt upstream NOTION_TOKEN DATABASE_ID STATUS_PROP fuel 0 .undefined
          initialCounts with
      | none => none
      | some (result, requests) => some { response := respond rt headers result, requests := requests }

/-! ## The remote service, page by page -/

/-- The body of an answer that is a success (`ok`) and parses as JSON. -/
def pageData : FetchOutcome → Option Json
  | .rejected _ => none
  | .resolved notionRes =>
    if notionRes.ok then
      match notionRes.json with
      | .ok data => some data
      | .error _ => none
    else none

/-- The flag `data.has_more`, as line 86 tests it. -/
def hasMore (data : Json) : Bool := truthy (getProp (.json data) "has_more")

/-- The value `data.next_cursor` of line 87. -/
def nextCursor (data : Json) : JsVal := getProp (.json data) "next_cursor"

/-- The records of a page: what `for (const page of data.results || [])` visits, nothing when
that value is not iterable. -/
def recordsOf (data : Json) : List Json :=
  match jsOr (getProp (.json data) "results") (.json (.arr [])) with
  | .json (.arr xs) => xs
  | .json (.str s) => s.toList.map fun c => Json.str (String.singleton c)
  | _ => []

/-- The label a record is counted under: its resolved status name as a property key. -/
def labelOf (rt : Runtime) (STATUS_PROP : String) (page : Json) : Option String :=
  toPropertyKey rt (statusNameOf STATUS_PROP page)

/-- A page the handler can tally: the body is not `null`, `data.results` is falsy, an array or
a string, and the status name of every record converts to a property key. -/
def readablePage (rt : Runtime) (STATUS_PROP : String) (data : Json) : Bool :=
  (match data with
    | .null => false
    | _ => true) &&
  (match jsOr (getProp (.json data) "results") (.json (.arr [])) with
    | .json (.arr _) => true
    | .json (.str _) => true
    | _ => false) &&
  (recordsOf data).all fun page => (labelOf rt STATUS_PROP page).isSome

/-- The tally after the records of one readable page. -/
def talliedPage (rt : Runtime) (STATUS_PROP : String) (data : Json) (counts : Counts) : Counts :=
  (recordsOf data).foldl
    (fun c page =>
      match labelOf rt STATUS_PROP page with
      | some k => if isDefined c k then increment rt c k else c
      | none => c)
    counts

/-- The tally after the first `n` pages. -/
def countsAfter (rt : Runtime) (STATUS_PROP : String) (pages : Nat → Json) : Nat → Counts
  | 0 => initialCounts
  | n + 1 => talliedPage rt STATUS_PROP (pages n) (countsAfter rt STATUS_PROP pages n)

/-- The value of `start_cursor` when the request with index `k` (from 0) is built. -/
def cursorBefore (pages : Nat → Json) : Nat → JsVal
  | 0 => .undefined
  | k + 1 => nextCursor (pages k)

/-- The records of the first `n` pages, in order. -/
def recordsThrough (pages : Nat → Json) (n : Nat) : List Json :=
  (List.range n).flatMap fun k => recordsOf (pages k)

/-- The number of records counted under the label `s`. -/
def countLabel (rt : Runtime) (STATUS_PROP : String) (records : List Json) (s : String) : Nat :=
  records.countP fun page => labelOf rt STATUS_PROP page == some s

/-- The `counts` object holding the number `c s` under each label `s` of the vocabulary. -/
def countsOf (c : String → Nat) : Counts := STATUSES.map fun s => (s, CountVal.num (c s))

/-- The record is counted under a label of the vocabulary. -/
def inVocabulary (rt : Runtime) (STATUS_PROP : String) (page : Json) : Bool :=
  match labelOf rt STATUS_PROP page with
  | some k => decide (k ∈ STATUSES)
  | none => false

/-- The record is counted under a name inherited from `Object.prototype`. -/
def inheritedLabel (rt : Runtime) (STATUS_PROP : String) (page : Json) : Bool :=
  match labelOf rt STATUS_PROP page with
  | some k => decide (k ∈ objectProtoKeys)
  | none => false

/-! ## Sample inputs -/

/-- A sample engine, worded after V8. -/
def v8 : Runtime :=
  { now := "2024-01-01T00:00:00.000Z"
    nativeSource := fun k =>
      "function " ++ (if k = "constructor" then "Object" else k) ++ "() \x7b [native code] \x7d"
    nullReadMessage := "Cannot read properties of null (reading \x27results\x27)"
    notIterableMessage := "(data.results || []) is not iterable"
    toPrimitiveMessage := "Cannot convert object to primitive value" }

/-- A record whose `Status` property is a status value named `name`. -/
def statusRecord (name : String) : Json :=
  .obj [("object", .str "page"),
        ("properties", .obj [("Status", .obj [("type", .str "status"),
                                              ("status", .obj [("name", .str name)])])])]

/-- A successful response with the given body. -/
def okPage (data : Json) : FetchOutcome :=
  .resolved { ok := true, status := 200, text := none, json := .ok data }

/-- A query result: records, the flag and the cursor. -/
def queryResult (results : List Json) (has_more : Bool) (next_cursor : Json) : Json :=
  .obj [("object", .str "list"), ("results", .arr results), ("next_cursor", next_cursor),
        ("has_more", .bool has_more)]

/-- An environment with the two credentials set and nothing else. -/
def plainEnv : Env :=
  { SHARED_KEY := none, NOTION_TOKEN := some "secret_token", DATABASE_ID := some "db1"
    STATUS_PROP := none }

/-- A plain GET without a key. -/
def getReq : Req := { method := "GET", key := .absent }

/-- The single page of the specification's scenario. -/
def scenarioPage : Json :=
  queryResult [statusRecord "Queue", statusRecord "Completed", statusRecord "Completed"]
    false .null

/-- Two pages; the first announces more with the cursor `null`. -/
def nullCursorUpstream (i : Nat) : FetchOutcome :=
  if i = 0 then okPage (queryResult [] true .null) else okPage (queryResult [] false .null)

/-- Two pages; the first announces more with the cursor `"c1"`. -/
def twoPageUpstream (i : Nat) : FetchOutcome :=
  if i = 0 then okPage (queryResult [statusRecord "Queue"] true (.str "c1"))
  else okPage (queryResult [statusRecord "Blocked"] false .null)

/-- The bodies `twoPageUpstream` delivers. -/
def twoPages (i : Nat) : Json :=
  if i = 0 then queryResult [statusRecord "Queue"] true (.str "c1")
  else queryResult [statusRecord "Blocked"] false .null

/-- One page announcing more with the cursor `"c1"`, then the status 429. -/
def failingSecondCall (i : Nat) : FetchOutcome :=
  if i = 0 then okPage (queryResult [statusRecord "Queue"] true (.str "c1"))
  else .resolved { ok := false, status := 429, text := some "rate limited", json := .ok .null }

/-- A body with a success status that line 74 cannot iterate: `results` is the number 5. It
reports more pages and a cursor. -/
def unreadablePage : Json :=
  .obj [("object", .str "list"), ("results", .num 5), ("next_cursor", .str "c1"),
        ("has_more", .bool true)]

/-- The body `unreadablePage`, then an empty last page. -/
def unreadableThenLast (i : Nat) : FetchOutcome :=
  if i = 0 then okPage unreadablePage else okPage (queryResult [] false .null)

/-- The body `unreadablePage`, then the status 429. -/
def unreadableThenFailing (i : Nat) : FetchOutcome :=
  if i = 0 then okPage unreadablePage
  else .resolved { ok := false, status := 429, text := some "rate limited", json := .ok .null }

/-- A record whose status value is present with an empty name. -/
def emptyNameRecord : Json :=
  .obj [("object", .str "page"),
        ("properties", .obj [("Status", .obj [("type", .str "status"),
                                              ("status", .obj [("id", .str "a1"),
                                                               ("name", .str "")])])])]

/-! ## The resolution rule as the specification words it -/

/-- A sub-value is present when it is neither `undefined` nor `null`. -/
def isPresent : JsVal → Bool
  | .undefined => false
  | .json .null => false
  | _ => true

/-- The label by the specification's rule: the name of the status sub-value whenever that
sub-value is present, otherwise the name of the select sub-value whenever that is present,
otherwise `"Unknown"`. -/
def claimedStatusName (STATUS_PROP : String) (page : Json) : JsVal :=
  let prop := getProp (getProp (.json page) "properties") STATUS_PROP
  if isPresent (getProp prop "status") then getProp (getProp prop "status") "name"
  else if isPresent (getProp prop "select") then getProp (getProp prop "select") "name"
  else .json (.str "Unknown")

/-! ## The handler, branch by branch -/

theorem handler_options (rt : Runtime) (env : Env) (req : Req) (upstream : Nat → FetchOutcome)
    (fuel : Nat) (h : req.method = "OPTIONS") :
    handler rt env req upstream fuel =
      some { response := { status := 200, headers := corsHeaders, body := none },
             requests := [] } := by
  simp [handler, h]

theorem handler_not_allowed (rt : Runtime) (env : Env) (req : Req)
    (upstream : Nat → FetchOutcome) (fuel : Nat) (h1 : req.method ≠ "OPTIONS")
    (h2 : req.method ≠ "GET") :
    handler rt env req upstream fuel =
      some { response := { status := 405, headers := corsHeaders,
                           body := some (errorBody "Method not allowed") },
             requests := [] } := by
  simp [handler, h1, h2]

theorem rejectsKey_iff (env : Env) (req : Req) :
    rejectsKey env req = true ↔
      ∃ secret, env.SHARED_KEY = some secret ∧ secret ≠ "" ∧ req.key ≠ .single secret := by
  unfold rejectsKey
  rcases hk : env.SHARED_KEY with _ | secret
  · simp [isSet]
  · cases hq : req.key <;> simp [isSet, keyDiffers]

theorem handler_unauthorized (rt : Runtime) (env : Env) (req : Req)
    (upstream : Nat → FetchOutcome) (fuel : Nat) (hGET : req.method = "GET")
    (h : rejectsKey env req = true) :
    handler rt env req upstream fuel =
      some { response := { status := 401, headers := corsHeaders,
                           body := some (errorBody "Unauthorized") },
             requests := [] } := by
  simp [handler, hGET, h]

theorem handler_missing (rt : Runtime) (env : Env) (req : Req)
    (upstream : Nat → FetchOutcome) (fuel : Nat) (hGET : req.method = "GET")
    (h : rejectsKey env req = false)
    (hm : isSet env.NOTION_TOKEN = false ∨ isSet env.DATABASE_ID = false) :
    handler rt env req upstream fuel =
      some { response := { status := 500, headers := corsHeaders ++ [cacheHeader],
                           body := some (errorBody "Missing NOTION_TOKEN or DATABASE_ID env vars") },
             requests := [] } := by
  rcases hm with hm | hm <;> simp [handler, hGET, h, hm]

theorem handler_loop (rt : Runtime) (env : Env) (req : Req)
    (upstream : Nat → FetchOutcome) (fuel : Nat) (hGET : req.method = "GET")
    (h : rejectsKey env req = false)
    (ht : isSet env.NOTION_TOKEN = true) (hd : isSet env.DATABASE_ID = true) :
    handler rt env req upstream fuel =
      (paginate rt upstream (env.NOTION_TOKEN.getD "") (env.DATABASE_ID.getD "")
          (statusProp env) fuel 0 .undefined initialCounts).map
        fun out => { response := respond rt (corsHeaders ++ [cacheHeader]) out.1,
                     requests := out.2 } := by
  simp only [handler, hGET, h, ht, hd]
  cases paginate rt upstream (env.NOTION_TOKEN.getD "") (env.DATABASE_ID.getD "")
      (statusProp env) fuel 0 .undefined initialCounts <;> simp

theorem isSet_eq_false_iff (v : Option String) : isSet v = false ↔ v = none ∨ v = some "" := by
  cases v <;> simp [isSet]

theorem isSet_eq_true_iff (v : Option String) :
    isSet v = true ↔ ∃ s, v = some s ∧ s ≠ "" := by
  cases v <;> simp [isSet]

theorem respond_status (rt : Runtime) (headers : List (String × String)) (result : LoopResult) :
    (respond rt headers result).status = 200 ∨ (respond rt headers result).status = 500 := by
  cases result <;> simp [respond]

theorem respond_headers (rt : Runtime) (headers : List (String × String))
    (result : LoopResult) : (respond rt headers result).headers = headers := by
  cases result <;> rfl

theorem handler_entersLoop (rt : Runtime) (env : Env) (req : Req)
    (upstream : Nat → FetchOutcome) (fuel : Nat) (h : entersLoop env req = true) :
    handler rt env req upstream fuel =
      (paginate rt upstream (env.NOTION_TOKEN.getD "") (env.DATABASE_ID.getD "")
          (statusProp env) fuel 0 .undefined initialCounts).map
        fun out => { response := respond rt (corsHeaders ++ [cacheHeader]) out.1,
                     requests := out.2 } := by
  simp only [entersLoop, Bool.and_eq_true, decide_eq_true_eq, Bool.not_eq_true'] at h
  exact handler_loop rt env req upstream fuel h.1.1.1 h.1.1.2 h.1.2 h.2

/-- Every terminated run ends in one of five ways. -/
theorem handler_cases (rt : Runtime) (env : Env) (req : Req) (upstream : Nat → FetchOutcome)
    (fuel : Nat) (run : Run) (h : handler rt env req upstream fuel = some run) :
    (req.method = "OPTIONS" ∧
      run = { response := { status := 200, headers := corsHeaders, body := none },
              requests := [] }) ∨
    (req.method ≠ "GET" ∧
      run = { response := { status := 405, headers := corsHeaders,
                            body := some (errorBody "Method not allowed") },
              requests := [] }) ∨
    (req.method = "GET" ∧
      run = { response := { status := 401, headers := corsHeaders,
                            body := some (errorBody "Unauthorized") },
              requests := [] }) ∨
    (req.method = "GET" ∧
      run = { response := { status := 500, headers := corsHeaders ++ [cacheHeader],
                            body := some (errorBody "Missing NOTION_TOKEN or DATABASE_ID env vars") },
              requests := [] }) ∨
    (entersLoop env req = true ∧ ∃ result requests,
      paginate rt upstream (env.NOTION_TOKEN.getD "") (env.DATABASE_ID.getD "")
          (statusProp env) fuel 0 .undefined initialCounts = some (result, requests) ∧
      run = { response := respond rt (corsHeaders ++ [cacheHeader]) result,
              requests := requests }) := by
  by_cases ho : req.method = "OPTIONS"
  · rw [handler_options rt env req upstream fuel ho] at h
    exact Or.inl ⟨ho, (Option.some.inj h).symm⟩
  by_cases hg : req.method = "GET"
  swap
  · rw [handler_not_allowed rt env req upstream fuel ho hg] at h
    exact Or.inr (Or.inl ⟨hg, (Option.some.inj h).symm⟩)
  cases hr : rejectsKey env req
  swap
  · rw [handler_unauthorized rt env req upstream fuel hg hr] at h
    exact Or.inr (Or.inr (Or.inl ⟨hg, (Option.some.inj h).symm⟩))
  by_cases hm : isSet env.NOTION_TOKEN = false ∨ isSet env.DATABASE_ID = false
  · rw [handler_missing rt env req upstream fuel hg hr hm] at h
    exact Or.inr (Or.inr (Or.inr (Or.inl ⟨hg, (Option.some.inj h).symm⟩)))
  have ht : isSet env.NOTION_TOKEN = true := by
    cases hv : isSet env.NOTION_TOKEN <;> simp_all
  have hd : isSet env.DATABASE_ID = true := by
    cases hv : isSet env.DATABASE_ID <;> simp_all
  have he : entersLoop env req = true := by simp [entersLoop, hg, hr, ht, hd]
  rw [handler_entersLoop rt env req upstream fuel he] at h
  cases hp : paginate rt upstream (env.NOTION_TOKEN.getD "") (env.DATABASE_ID.getD "")
      (statusProp env) fuel 0 .undefined initialCounts with
  | none => simp [hp] at h
  | some out =>
    simp only [hp, Option.map_some', Option.some.injEq] at h
    exact Or.inr (Or.inr (Or.inr (Or.inr ⟨he, out.1, out.2, rfl, h.symm⟩)))

/-! ## The loop -/

theorem tallyRecords_eq_foldl (rt : Runtime) (STATUS_PROP : String) (records : List Json)
    (counts : Counts)
    (h : ∀ page ∈ records, (labelOf rt STATUS_PROP page).isSome = true) :
    tallyRecords rt STATUS_PROP records counts =
      .ok (records.foldl
        (fun c page =>
          match labelOf rt STATUS_PROP page with
          | some k => if isDefined c k then increment rt c k else c
          | none => c)
        counts) := by
  induction records generalizing counts with
  | nil => rfl
  | cons page rest ih =>
    have hp := h page (List.mem_cons_self _ _)
    obtain ⟨k, hk⟩ := Option.isSome_iff_exists.1 hp
    have hk' : toPropertyKey rt (statusNameOf STATUS_PROP page) = some k := hk
    simp only [tallyRecords, tallyRecord, hk', List.foldl_cons, hk]
    exact ih _ fun q hq => h q (List.mem_cons_of_mem _ hq)

theorem tallyPage_readable (rt : Runtime) (STATUS_PROP : String) (data : Json)
    (counts : Counts) (h : readablePage rt STATUS_PROP data = true) :
    tallyPage rt STATUS_PROP data counts = .ok (talliedPage rt STATUS_PROP data counts) := by
  simp only [readablePage, Bool.and_eq_true, List.all_eq_true] at h
  obtain ⟨⟨hnull, hiter⟩, hkeys⟩ := h
  have hrec : iterate rt (getProp (.json data) "results") = .ok (recordsOf data) := by
    unfold iterate recordsOf
    split <;> simp_all
  have htally := tallyRecords_eq_foldl rt STATUS_PROP (recordsOf data) counts hkeys
  cases data with
  | null => simp at hnull
  | _ => simp only [tallyPage, hrec, htally, talliedPage]

theorem paginate_more (rt : Runtime) (upstream : Nat → FetchOutcome)
    (NOTION_TOKEN DATABASE_ID STATUS_PROP : String) (fuel i : Nat) (cursor : JsVal)
    (counts : Counts) (data : Json) (hd : pageData (upstream i) = some data)
    (hr : readablePage rt STATUS_PROP data = true) (hm : hasMore data = true) :
    paginate rt upstream NOTION_TOKEN DATABASE_ID STATUS_PROP (fuel + 1) i cursor counts =
      (paginate rt upstream NOTION_TOKEN DATABASE_ID STATUS_PROP fuel (i + 1) (nextCursor data)
          (talliedPage rt STATUS_PROP data counts)).map
        fun out => (out.1, queryRequest NOTION_TOKEN DATABASE_ID cursor :: out.2) := by
  unfold hasMore at hm
  cases hu : upstream i with
  | rejected err => simp [pageData, hu] at hd
  | resolved notionRes =>
    rw [hu] at hd
    simp only [pageData] at hd
    cases hok : notionRes.ok with
    | false => simp [hok] at hd
    | true =>
      cases hj : notionRes.json with
      | error err => simp [hok, hj] at hd
      | ok body =>
        simp only [hok, hj, if_true, Option.some.injEq] at hd
        subst hd
        simp only [paginate, hu, hok, hj, tallyPage_readable rt STATUS_PROP body counts hr, hm,
          nextCursor]
        cases paginate rt upstream NOTION_TOKEN DATABASE_ID STATUS_PROP fuel (i + 1)
          (getProp (.json body) "next_cursor") (talliedPage rt STATUS_PROP body counts) <;> simp

theorem paginate_last (rt : Runtime) (upstream : Nat → FetchOutcome)
    (NOTION_TOKEN DATABASE_ID STATUS_PROP : String) (fuel i : Nat) (cursor : JsVal)
    (counts : Counts) (data : Json) (hd : pageData (upstream i) = some data)
    (hr : readablePage rt STATUS_PROP data = true) (hm : hasMore data = false) :
    paginate rt upstream NOTION_TOKEN DATABASE_ID STATUS_PROP (fuel + 1) i cursor counts =
      some (.finished (talliedPage rt STATUS_PROP data counts),
        [queryRequest NOTION_TOKEN DATABASE_ID cursor]) := by
  unfold hasMore at hm
  cases hu : upstream i with
  | rejected err => simp [pageData, hu] at hd
  | resolved notionRes =>
    rw [hu] at hd
    simp only [pageData] at hd
    cases hok : notionRes.ok with
    | false => simp [hok] at hd
    | true =>
      cases hj : notionRes.json with
      | error err => simp [hok, hj] at hd
      | ok body =>
        simp only [hok, hj, if_true, Option.some.injEq] at hd
        subst hd
        simp [paginate, hu, hok, hj, tallyPage_readable rt STATUS_PROP body counts hr, hm]

theorem paginate_failed (rt : Runtime) (upstream : Nat → FetchOutcome)
    (NOTION_TOKEN DATABASE_ID STATUS_PROP : String) (fuel i : Nat) (cursor : JsVal)
    (counts : Counts) (notionRes : NotionRes) (hu : upstream i = .resolved notionRes)
    (hok : notionRes.ok = false) :
    paginate rt upstream NOTION_TOKEN DATABASE_ID STATUS_PROP (fuel + 1) i cursor counts =
      some (.upstreamFailed notionRes.status (notionRes.text.getD ""),
        [queryRequest NOTION_TOKEN DATABASE_ID cursor]) := by
  simp [paginate, hu, hok]

/-- The loop runs through `m` readable pages that announce more, issuing one request each. -/
theorem paginate_through (rt : Runtime) (upstream : Nat → FetchOutcome)
    (NOTION_TOKEN DATABASE_ID STATUS_PROP : String) (pages : Nat → Json) (m : Nat) :
    ∀ (i fuel : Nat),
      (∀ k, i ≤ k → k < i + m → pageData (upstream k) = some (pages k) ∧
        readablePage rt STATUS_PROP (pages k) = true ∧ hasMore (pages k) = true) →
      paginate rt upstream NOTION_TOKEN DATABASE_ID STATUS_PROP (m + fuel) i
          (cursorBefore pages i) (countsAfter rt STATUS_PROP pages i) =
        (paginate rt upstream NOTION_TOKEN DATABASE_ID STATUS_PROP fuel (i + m)
            (cursorBefore pages (i + m)) (countsAfter rt STATUS_PROP pages (i + m))).map
          fun out => (out.1,
            (List.range' i m).map (fun k =>
              queryRequest NOTION_TOKEN DATABASE_ID (cursorBefore pages k)) ++ out.2) := by
  induction m with
  | zero =>
    intro i fuel _
    cases paginate rt upstream NOTION_TOKEN DATABASE_ID STATUS_PROP fuel i
      (cursorBefore pages i) (countsAfter rt STATUS_PROP pages i) <;> simp
  | succ m ih =>
    intro i fuel h
    obtain ⟨hd, hr, hm⟩ := h i (le_refl _) (by omega)
    have e : m + 1 + fuel = (m + fuel) + 1 := by omega
    rw [e, paginate_more rt upstream NOTION_TOKEN DATABASE_ID STATUS_PROP (m + fuel) i _ _
      (pages i) hd hr hm]
    have ih' := ih (i + 1) fuel (fun k hk1 hk2 => h k (by omega) (by omega))
    have e2 : i + 1 + m = i + (m + 1) := by omega
    rw [e2] at ih'
    have hc : nextCursor (pages i) = cursorBefore pages (i + 1) := rfl
    have hn : talliedPage rt STATUS_PROP (pages i) (countsAfter rt STATUS_PROP pages i) =
        countsAfter rt STATUS_PROP pages (i + 1) := rfl
    rw [hc, hn, ih', Option.map_map]
    congr 1

/-- The list of the first `n` requests. -/
theorem range_map_snoc (f : Nat → FetchRequest) (n : Nat) :
    (List.range' 0 n).map f ++ [f n] = (List.range (n + 1)).map f := by
  rw [List.range_succ, List.map_append, List.range_eq_range']
  rfl

/-- A loop fed `n + 1` readable pages of which only the last reports no more pages finishes
with the tally of all of them after `n + 1` requests. -/
theorem paginate_complete (rt : Runtime) (upstream : Nat → FetchOutcome)
    (NOTION_TOKEN DATABASE_ID STATUS_PROP : String) (pages : Nat → Json) (n fuel : Nat)
    (hpages : ∀ k, k < n + 1 → pageData (upstream k) = some (pages k) ∧
      readablePage rt STATUS_PROP (pages k) = true)
    (hmore : ∀ k, k < n → hasMore (pages k) = true)
    (hlast : hasMore (pages n) = false) :
    paginate rt upstream NOTION_TOKEN DATABASE_ID STATUS_PROP (n + 1 + fuel) 0 .undefined
        initialCounts =
      some (.finished (countsAfter rt STATUS_PROP pages (n + 1)),
        (List.range (n + 1)).map fun k =>
          queryRequest NOTION_TOKEN DATABASE_ID (cursorBefore pages k)) := by
  have e : n + 1 + fuel = n + (fuel + 1) := by omega
  have h0 := paginate_through rt upstream NOTION_TOKEN DATABASE_ID STATUS_PROP pages n 0
    (fuel + 1) (fun k _ hk => ⟨(hpages k (by omega)).1, (hpages k (by omega)).2,
      hmore k (by omega)⟩)
  simp only [Nat.zero_add] at h0
  have hc : cursorBefore pages 0 = .undefined := rfl
  have hi : countsAfter rt STATUS_PROP pages 0 = initialCounts := rfl
  rw [hc, hi] at h0
  rw [e, h0, paginate_last rt upstream NOTION_TOKEN DATABASE_ID STATUS_PROP fuel n _ _ (pages n)
    (hpages n (by omega)).1 (hpages n (by omega)).2 hlast]
  simp only [Option.map_some', range_map_snoc]
  rfl

/-- A loop fed `n` readable pages that announce more and then a failure status stops after
`n + 1` requests with that failure. -/
theorem paginate_fails (rt : Runtime) (upstream : Nat → FetchOutcome)
    (NOTION_TOKEN DATABASE_ID STATUS_PROP : String) (pages : Nat → Json) (n fuel : Nat)
    (notionRes : NotionRes)
    (hpages : ∀ k, k < n → pageData (upstream k) = some (pages k) ∧
      readablePage rt STATUS_PROP (pages k) = true ∧ hasMore (pages k) = true)
    (hu : upstream n = .resolved notionRes) (hok : notionRes.ok = false) :
    paginate rt upstream NOTION_TOKEN DATABASE_ID STATUS_PROP (n + 1 + fuel) 0 .undefined
        initialCounts =
      some (.upstreamFailed notionRes.status (notionRes.text.getD ""),
        (List.range (n + 1)).map fun k =>
          queryRequest NOTION_TOKEN DATABASE_ID (cursorBefore pages k)) := by
  have e : n + 1 + fuel = n + (fuel + 1) := by omega
  have h0 := paginate_through rt upstream NOTION_TOKEN DATABASE_ID STATUS_PROP pages n 0
    (fuel + 1) (fun k _ hk => hpages k (by omega))
  simp only [Nat.zero_add] at h0
  have hc : cursorBefore pages 0 = .undefined := rfl
  have hi : countsAfter rt STATUS_PROP pages 0 = initialCounts := rfl
  rw [hc, hi] at h0
  rw [e, h0, paginate_failed rt upstream NOTION_TOKEN DATABASE_ID STATUS_PROP fuel n _ _
    notionRes hu hok]
  simp only [Option.map_some', range_map_snoc]

theorem paginate_threw (rt : Runtime) (upstream : Nat → FetchOutcome)
    (NOTION_TOKEN DATABASE_ID STATUS_PROP : String) (fuel i : Nat) (cursor : JsVal)
    (counts : Counts) (err : JsError)
    (hu : upstream i = .rejected err ∨
      ∃ notionRes, upstream i = .resolved notionRes ∧ notionRes.ok = true ∧
        notionRes.json = .error err) :
    paginate rt upstream NOTION_TOKEN DATABASE_ID STATUS_PROP (fuel + 1) i cursor counts =
      some (.threw err, [queryRequest NOTION_TOKEN DATABASE_ID cursor]) := by
  rcases hu with hu | ⟨notionRes, hu, hok, hj⟩
  · simp [paginate, hu]
  · simp [paginate, hu, hok, hj]

/-- A loop fed `n` readable pages that announce more and then a rejected `fetch` or a body
that does not parse raises that exception after `n + 1` requests. -/
theorem paginate_throws (rt : Runtime) (upstream : Nat → FetchOutcome)
    (NOTION_TOKEN DATABASE_ID STATUS_PROP : String) (pages : Nat → Json) (n fuel : Nat)
    (err : JsError)
    (hpages : ∀ k, k < n → pageData (upstream k) = some (pages k) ∧
      readablePage rt STATUS_PROP (pages k) = true ∧ hasMore (pages k) = true)
    (hu : upstream n = .rejected err ∨
      ∃ notionRes, upstream n = .resolved notionRes ∧ notionRes.ok = true ∧
        notionRes.json = .error err) :
    paginate rt upstream NOTION_TOKEN DATABASE_ID STATUS_PROP (n + 1 + fuel) 0 .undefined
        initialCounts =
      some (.threw err,
        (List.range (n + 1)).map fun k =>
          queryRequest NOTION_TOKEN DATABASE_ID (cursorBefore pages k)) := by
  have e : n + 1 + fuel = n + (fuel + 1) := by omega
  have h0 := paginate_through rt upstream NOTION_TOKEN DATABASE_ID STATUS_PROP pages n 0
    (fuel + 1) (fun k _ hk => hpages k (by omega))
  simp only [Nat.zero_add] at h0
  have hc : cursorBefore pages 0 = .undefined := rfl
  have hi : countsAfter rt STATUS_PROP pages 0 = initialCounts := rfl
  rw [hc, hi] at h0
  rw [e, h0, paginate_threw rt upstream NOTION_TOKEN DATABASE_ID STATUS_PROP fuel n _ _ err hu]
  simp only [Option.map_some', range_map_snoc]

/-! ## Method gating, authorization and configuration -/

/-- C7: a request whose method is not GET is answered from the method alone, whatever the
environment, the key parameter, the remote service and the fuel are, and without a single
`fetch`: OPTIONS gets status 200 with an empty body, every other method gets status 405 with
the body `{error: "Method not allowed"}`. -/
theorem non_get_decided_by_method (rt : Runtime) (env : Env) (req : Req)
    (upstream : Nat → FetchOutcome) (fuel : Nat) (h : req.method ≠ "GET") :
    handler rt env req upstream fuel =
      some { response :=
               if req.method = "OPTIONS" then
                 { status := 200, headers := corsHeaders, body := none }
               else
                 { status := 405, headers := corsHeaders,
                   body := some (.obj [("error", .str "Method not allowed")]) },
             requests := [] } := by
  by_cases ho : req.method = "OPTIONS"
  · rw [handler_options rt env req upstream fuel ho, if_pos ho]
  · rw [handler_not_allowed rt env req upstream fuel ho h, if_neg ho]
    rfl

theorem non_get_decided_by_method_witness :
    handler v8 plainEnv { method := "DELETE", key := .single "k" } (fun _ => okPage .null) 0 =
      some { response := { status := 405, headers := corsHeaders,
                           body := some (.obj [("error", .str "Method not allowed")]) },
             requests := [] } :=
  non_get_decided_by_method v8 plainEnv { method := "DELETE", key := .single "k" }
    (fun _ => okPage .null) 0 (by decide)

/-- C5: a GET request is answered 401 exactly when `SHARED_KEY` is set to a non-empty secret
and `req.query.key` is not that very string. The 401 response has the body
`{error: "Unauthorized"}` and is sent before any `fetch`, whatever `NOTION_TOKEN` and
`DATABASE_ID` are; with `SHARED_KEY` unset or empty no key, present or absent, leads to 401. -/
theorem unauthorized_iff_key_mismatch (rt : Runtime) (env : Env) (req : Req)
    (upstream : Nat → FetchOutcome) (fuel : Nat) (hGET : req.method = "GET") :
    ((∃ run, handler rt env req upstream fuel = some run ∧ run.response.status = 401) ↔
      ∃ secret, env.SHARED_KEY = some secret ∧ secret ≠ "" ∧ req.key ≠ .single secret) ∧
    ((∃ secret, env.SHARED_KEY = some secret ∧ secret ≠ "" ∧ req.key ≠ .single secret) →
      handler rt env req upstream fuel =
        some { response := { status := 401, headers := corsHeaders,
                             body := some (.obj [("error", .str "Unauthorized")]) },
               requests := [] }) ∧
    ((env.SHARED_KEY = none ∨ env.SHARED_KEY = some "") →
      ∀ run, handler rt env req upstream fuel = some run → run.response.status ≠ 401) := by
  have hrej : rejectsKey env req = true →
      handler rt env req upstream fuel =
        some { response := { status := 401, headers := corsHeaders,
                             body := some (.obj [("error", .str "Unauthorized")]) },
               requests := [] } := fun h => handler_unauthorized rt env req upstream fuel hGET h
  have hpass : rejectsKey env req = false →
      ∀ run, handler rt env req upstream fuel = some run → run.response.status ≠ 401 := by
    intro h run hrun
    by_cases hm : isSet env.NOTION_TOKEN = false ∨ isSet env.DATABASE_ID = false
    · rw [handler_missing rt env req upstream fuel hGET h hm] at hrun
      cases hrun
      simp
    · have ht : isSet env.NOTION_TOKEN = true := by
        cases hv : isSet env.NOTION_TOKEN <;> simp_all
      have hd : isSet env.DATABASE_ID = true := by
        cases hv : isSet env.DATABASE_ID <;> simp_all
      rw [handler_loop rt env req upstream fuel hGET h ht hd] at hrun
      cases hp : paginate rt upstream (env.NOTION_TOKEN.getD "") (env.DATABASE_ID.getD "")
          (statusProp env) fuel 0 .undefined initialCounts with
      | none => simp [hp] at hrun
      | some out =>
        simp only [hp, Option.map_some', Option.some.injEq] at hrun
        subst hrun
        rcases respond_status rt (corsHeaders ++ [cacheHeader]) out.1 with h2 | h2 <;>
          simp [h2]
  refine ⟨⟨?_, ?_⟩, ?_, ?_⟩
  · rintro ⟨run, hrun, hst⟩
    rw [← rejectsKey_iff]
    cases hr : rejectsKey env req
    · exact absurd hst (hpass hr run hrun)
    · rfl
  · intro h
    exact ⟨_, hrej ((rejectsKey_iff env req).2 h), rfl⟩
  · intro h
    exact hrej ((rejectsKey_iff env req).2 h)
  · intro h
    apply hpass
    cases hr : rejectsKey env req
    · rfl
    · obtain ⟨secret, hs, hne, _⟩ := (rejectsKey_iff env req).1 hr
      rcases h with h | h <;> simp_all

theorem unauthorized_iff_key_mismatch_witness :
    handler v8 { SHARED_KEY := some "s3cret", NOTION_TOKEN := none, DATABASE_ID := none,
                 STATUS_PROP := none }
        { method := "GET", key := .single "guess" } (fun _ => okPage .null) 0 =
      some { response := { status := 401, headers := corsHeaders,
                           body := some (.obj [("error", .str "Unauthorized")]) },
             requests := [] } :=
  (unauthorized_iff_key_mismatch v8
      { SHARED_KEY := some "s3cret", NOTION_TOKEN := none, DATABASE_ID := none,
        STATUS_PROP := none }
      { method := "GET", key := .single "guess" } (fun _ => okPage .null) 0 rfl).2.1
    ⟨"s3cret", rfl, by decide, by simp⟩

/-- C6: a GET request that passes the shared-key check, with `NOTION_TOKEN` or `DATABASE_ID`
unset or empty, is answered 500 with the body
`{error: "Missing NOTION_TOKEN or DATABASE_ID env vars"}` and no `fetch` is issued; when both
are set to non-empty strings the handler never sends that body. -/
theorem missing_configuration (rt : Runtime) (env : Env) (req : Req)
    (upstream : Nat → FetchOutcome) (fuel : Nat) (hGET : req.method = "GET")
    (hkey : ¬ ∃ secret, env.SHARED_KEY = some secret ∧ secret ≠ "" ∧ req.key ≠ .single secret) :
    ((env.NOTION_TOKEN = none ∨ env.NOTION_TOKEN = some "" ∨
        env.DATABASE_ID = none ∨ env.DATABASE_ID = some "") →
      handler rt env req upstream fuel =
        some { response :=
                 { status := 500, headers := corsHeaders ++ [cacheHeader],
                   body := some (.obj [("error",
                     .str "Missing NOTION_TOKEN or DATABASE_ID env vars")]) },
               requests := [] }) ∧
    ((∃ token, env.NOTION_TOKEN = some token ∧ token ≠ "") →
      (∃ database, env.DATABASE_ID = some database ∧ database ≠ "") →
      ∀ run, handler rt env req upstream fuel = some run →
        run.response.body ≠
          some (.obj [("error", .str "Missing NOTION_TOKEN or DATABASE_ID env vars")])) := by
  have hr : rejectsKey env req = false := by
    cases h : rejectsKey env req
    · rfl
    · exact absurd ((rejectsKey_iff env req).1 h) hkey
  constructor
  · intro hm
    apply handler_missing rt env req upstream fuel hGET hr
    rcases hm with hm | hm | hm | hm
    · exact Or.inl ((isSet_eq_false_iff _).2 (Or.inl hm))
    · exact Or.inl ((isSet_eq_false_iff _).2 (Or.inr hm))
    · exact Or.inr ((isSet_eq_false_iff _).2 (Or.inl hm))
    · exact Or.inr ((isSet_eq_false_iff _).2 (Or.inr hm))
  · intro ht hd run hrun
    rw [handler_loop rt env req upstream fuel hGET hr ((isSet_eq_true_iff _).2 ht)
      ((isSet_eq_true_iff _).2 hd)] at hrun
    cases hp : paginate rt upstream (env.NOTION_TOKEN.getD "") (env.DATABASE_ID.getD "")
        (statusProp env) fuel 0 .undefined initialCounts with
    | none => simp [hp] at hrun
    | some out =>
      simp only [hp, Option.map_some', Option.some.injEq] at hrun
      subst hrun
      cases out.1 <;> simp [respond]

theorem missing_configuration_witness :
    handler v8 { SHARED_KEY := none, NOTION_TOKEN := some "secret_token", DATABASE_ID := some "",
                 STATUS_PROP := none } getReq (fun _ => okPage .null) 5 =
      some { response :=
               { status := 500, headers := corsHeaders ++ [cacheHeader],
                 body := some (.obj [("error",
                   .str "Missing NOTION_TOKEN or DATABASE_ID env vars")]) },
             requests := [] } :=
  (missing_configuration v8
      { SHARED_KEY := none, NOTION_TOKEN := some "secret_token", DATABASE_ID := some "",
        STATUS_PROP := none } getReq (fun _ => okPage .null) 5 rfl (by simp)).1
    (Or.inr (Or.inr (Or.inr rfl)))

/-! ## Terminal states and headers -/

/-- C9, the claim as stated, fails: the detail is not the message of every exception. When
`fetch` rejects with a `TypeError` whose message is empty, the detail is `"TypeError"`. -/
theorem detail_is_message_counterexample :
    ¬ ∀ err : JsError, ∃ run,
        handler v8 plainEnv getReq (fun _ => .rejected err) 1 = some run ∧
        run.response.body =
          some (.obj [("error", .str "Server error"), ("detail", .str err.message)]) := by
  intro h
  obtain ⟨run, hrun, hbody⟩ := h ⟨"TypeError", ""⟩
  have hrun' : handler v8 plainEnv getReq (fun _ => .rejected ⟨"TypeError", ""⟩) 1 =
      some { response := { status := 500, headers := corsHeaders ++ [cacheHeader],
                           body := some (.obj [("error", .str "Server error"),
                                               ("detail", .str "TypeError")]) },
             requests := [queryRequest "secret_token" "db1" .undefined] } := rfl
  rw [hrun'] at hrun
  cases hrun
  simp at hbody

/-- C9 (amended): every terminated run answers with status 200, 401, 405 or 500; every
response whose status is not 200 carries a JSON object with a string member `error`; and once
the request has reached the `try` block, an exception `err` raised inside it does not escape:
the response is 500 with the body `{error: "Server error", detail}`, where `detail` is the
message of `err` when that is not empty and the name of `err` otherwise. In particular this is
the response when, after `n` readable pages that report more pages, the next `fetch` rejects
with `err` or the next body fails to parse with `err`. -/
theorem terminal_states (rt : Runtime) (env : Env) (req : Req) (upstream : Nat → FetchOutcome)
    (fuel : Nat) (run : Run) (h : handler rt env req upstream fuel = some run) :
    (run.response.status = 200 ∨ run.response.status = 401 ∨ run.response.status = 405 ∨
      run.response.status = 500) ∧
    (run.response.status ≠ 200 → ∃ members message,
      run.response.body = some (.obj members) ∧
      lookupOwn "error" members = some (.str message)) ∧
    (entersLoop env req = true → ∀ err requests,
      paginate rt upstream (env.NOTION_TOKEN.getD "") (env.DATABASE_ID.getD "")
          (statusProp env) fuel 0 .undefined initialCounts = some (.threw err, requests) →
      run = { response :=
                { status := 500, headers := corsHeaders ++ [cacheHeader],
                  body := some (.obj [("error", .str "Server error"),
                    ("detail", .str (if err.message ≠ "" then err.message else err.name))]) },
              requests := requests }) ∧
    (entersLoop env req = true → ∀ (pages : Nat → Json) (n : Nat) (err : JsError),
      n < fuel →
      (∀ k, k < n → pageData (upstream k) = some (pages k) ∧
        readablePage rt (statusProp env) (pages k) = true ∧ hasMore (pages k) = true) →
      (upstream n = .rejected err ∨
        ∃ notionRes, upstream n = .resolved notionRes ∧ notionRes.ok = true ∧
          notionRes.json = .error err) →
      run.requests.length = n + 1 ∧
      run.response =
        { status := 500, headers := corsHeaders ++ [cacheHeader],
          body := some (.obj [("error", .str "Server error"),
            ("detail", .str (if err.message ≠ "" then err.message else err.name))]) }) := by
  refine ⟨?_, ?_, ?_, ?_⟩
  · rcases handler_cases rt env req upstream fuel run h with
      ⟨_, rfl⟩ | ⟨_, rfl⟩ | ⟨_, rfl⟩ | ⟨_, rfl⟩ | ⟨_, result, requests, _, rfl⟩
    · exact Or.inl rfl
    · exact Or.inr (Or.inr (Or.inl rfl))
    · exact Or.inr (Or.inl rfl)
    · exact Or.inr (Or.inr (Or.inr rfl))
    · rcases respond_status rt (corsHeaders ++ [cacheHeader]) result with h2 | h5
      · exact Or.inl h2
      · exact Or.inr (Or.inr (Or.inr h5))
  · intro hne
    rcases handler_cases rt env req upstream fuel run h with
      ⟨_, rfl⟩ | ⟨_, rfl⟩ | ⟨_, rfl⟩ | ⟨_, rfl⟩ | ⟨_, result, requests, _, rfl⟩
    · exact absurd rfl hne
    · exact ⟨_, "Method not allowed", rfl, rfl⟩
    · exact ⟨_, "Unauthorized", rfl, rfl⟩
    · exact ⟨_, "Missing NOTION_TOKEN or DATABASE_ID env vars", rfl, rfl⟩
    · cases result with
      | upstreamFailed status detail => exact ⟨_, "Notion query failed", rfl, rfl⟩
      | finished counts => exact absurd rfl hne
      | threw err => exact ⟨_, "Server error", rfl, rfl⟩
  · intro he err requests hp
    rw [handler_entersLoop rt env req upstream _ he, hp] at h
    simp only [Option.map_some', Option.some.injEq] at h
    subst h
    simp [respond, errorDetail]
  · intro he pages n err hn hpages hu
    obtain ⟨extra, rfl⟩ : ∃ extra, fuel = n + 1 + extra := ⟨fuel - (n + 1), by omega⟩
    have hp := paginate_throws rt upstream (env.NOTION_TOKEN.getD "")
      (env.DATABASE_ID.getD "") (statusProp env) pages n extra err hpages hu
    rw [handler_entersLoop rt env req upstream _ he, hp] at h
    simp only [Option.map_some', Option.some.injEq] at h
    subst h
    simp [respond, errorDetail]

theorem terminal_states_witness :
    ∃ run, handler v8 plainEnv getReq
        (fun _ => .resolved { ok := true, status := 200, text := none,
                              json := .error ⟨"SyntaxError", "Unexpected end of JSON input"⟩ })
        1 = some run ∧
      run.requests.length = 1 ∧
      run.response =
        { status := 500, headers := corsHeaders ++ [cacheHeader],
          body := some (.obj [("error", .str "Server error"),
                              ("detail", .str "Unexpected end of JSON input")]) } :=
  ⟨_, rfl,
    (terminal_states v8 plainEnv getReq
        (fun _ => .resolved { ok := true, status := 200, text := none,
                              json := .error ⟨"SyntaxError", "Unexpected end of JSON input"⟩ })
        1 _ rfl).2.2.2 rfl (fun _ => .null) 0 ⟨"SyntaxError", "Unexpected end of JSON input"⟩
      (by decide) (fun k hk => absurd hk (by omega)) (Or.inr ⟨_, rfl, rfl, rfl⟩)⟩

/-- C10, the claim as stated, fails: the answer to an OPTIONS request has status 200 and no
`Cache-Control` header. -/
theorem cache_header_counterexample :
    ∃ run, handler v8 plainEnv { method := "OPTIONS", key := .absent } (fun _ => okPage .null) 0 =
        some run ∧
      run.response.status = 200 ∧
      ∀ value, ("Cache-Control", value) ∉ run.response.headers :=
  ⟨_, rfl, rfl, by simp [corsHeaders]⟩

/-- C10 (amended): every response carries the three CORS headers, and every response with
status 200 to a GET request also carries
`Cache-Control: s-maxage=10, stale-while-revalidate=30`. -/
theorem response_headers (rt : Runtime) (env : Env) (req : Req) (upstream : Nat → FetchOutcome)
    (fuel : Nat) (run : Run) (h : handler rt env req upstream fuel = some run) :
    (("Access-Control-Allow-Origin", "*") ∈ run.response.headers ∧
      ("Access-Control-Allow-Methods", "GET,OPTIONS") ∈ run.response.headers ∧
      ("Access-Control-Allow-Headers", "Content-Type") ∈ run.response.headers) ∧
    (req.method = "GET" → run.response.status = 200 →
      ("Cache-Control", "s-maxage=10, stale-while-revalidate=30") ∈ run.response.headers) := by
  rcases handler_cases rt env req upstream fuel run h with
    ⟨ho, rfl⟩ | ⟨hg, rfl⟩ | ⟨_, rfl⟩ | ⟨_, rfl⟩ | ⟨_, result, requests, _, rfl⟩
  · refine ⟨by simp [corsHeaders], ?_⟩
    intro hg
    rw [ho] at hg
    exact absurd hg (by decide)
  · exact ⟨by simp [corsHeaders], fun hg' => absurd hg' hg⟩
  · exact ⟨by simp [corsHeaders], fun _ hs => absurd hs (by decide)⟩
  · exact ⟨by simp [corsHeaders], fun _ hs => absurd hs (by decide)⟩
  · simp only [respond_headers]
    exact ⟨by simp [corsHeaders], fun _ _ => by simp [cacheHeader]⟩

theorem response_headers_witness :
    ∃ run, handler v8 plainEnv getReq (fun _ => okPage (queryResult [] false .null)) 1 =
        some run ∧
      run.response.status = 200 ∧
      ("Cache-Control", "s-maxage=10, stale-while-revalidate=30") ∈ run.response.headers :=
  ⟨_, rfl, rfl,
    (response_headers v8 plainEnv getReq (fun _ => okPage (queryResult [] false .null)) 1 _
      rfl).2 rfl rfl⟩

/-! ## Pagination -/

/-- C3, the claim as stated, fails twice over. When page 1 reports `has_more` with the cursor
`null`, the handler issues two requests and the second carries no `start_cursor`, so not the
value page 1 returned. And when page 1 is a success whose body reports `has_more` but has the
number 5 for `results`, line 74 raises: the handler issues one request, not two, and answers
500. -/
theorem start_cursor_counterexample :
    (∃ run, handler v8 plainEnv getReq nullCursorUpstream 2 = some run ∧
      run.requests.length = 2 ∧
      nextCursor (queryResult [] true .null) = .json .null ∧
      run.requests.map (fun r => r.start_cursor.isSome) = [false, false]) ∧
    (∃ run, handler v8 plainEnv getReq unreadableThenLast 2 = some run ∧
      pageData (unreadableThenLast 0) = some unreadablePage ∧
      hasMore unreadablePage = true ∧
      pageData (unreadableThenLast 1) = some (queryResult [] false .null) ∧
      hasMore (queryResult [] false .null) = false ∧
      run.requests.length = 1 ∧
      run.response.status = 500) :=
  ⟨⟨_, rfl, rfl, rfl, rfl⟩, ⟨_, rfl, rfl, rfl, rfl, rfl, rfl, rfl⟩⟩

/-- C3 (amended): for a GET request that passes the key check with both credentials set, when
the remote service answers the first `N` calls with a success status and a body that parses and
that the handler can tally without an exception (the body is not `null`, its `results` is
falsy, an array or a string, and under the configured property name the status name of every
record converts to a property key), of which the first `N - 1` report more pages and the
`N`-th does not, the handler (given fuel for `N` iterations) issues exactly `N` requests, each
with `page_size` 100; the first carries no `start_cursor`, and the request after page `k`
carries the `next_cursor` of page `k` when that value is truthy and no `start_cursor` when it
is falsy. -/
theorem pagination_requests (rt : Runtime) (env : Env) (req : Req)
    (upstream : Nat → FetchOutcome) (pages : Nat → Json) (N fuel : Nat)
    (hloop : entersLoop env req = true) (hN : 1 ≤ N) (hfuel : N ≤ fuel)
    (hpages : ∀ k, k < N → pageData (upstream k) = some (pages k) ∧
      readablePage rt (statusProp env) (pages k) = true)
    (hmore : ∀ k, k + 1 < N → hasMore (pages k) = true)
    (hlast : hasMore (pages (N - 1)) = false) :
    ∃ run, handler rt env req upstream fuel = some run ∧
      run.requests.length = N ∧
      (∀ r ∈ run.requests, r.page_size = 100) ∧
      (∃ r, run.requests[0]? = some r ∧ r.start_cursor = none) ∧
      (∀ k, k + 1 < N → ∃ r, run.requests[k + 1]? = some r ∧
        r.start_cursor =
          if truthy (nextCursor (pages k)) then some (nextCursor (pages k)) else none) := by
  obtain ⟨n, rfl⟩ : ∃ n, N = n + 1 := ⟨N - 1, by omega⟩
  obtain ⟨extra, rfl⟩ : ∃ extra, fuel = n + 1 + extra := ⟨fuel - (n + 1), by omega⟩
  have hp := paginate_complete rt upstream (env.NOTION_TOKEN.getD "") (env.DATABASE_ID.getD "")
    (statusProp env) pages n extra hpages (fun k hk => hmore k (by omega)) hlast
  rw [handler_entersLoop rt env req upstream _ hloop, hp]
  refine ⟨_, rfl, by simp, ?_, ?_, ?_⟩
  · intro r hr
    simp only [List.mem_map] at hr
    obtain ⟨k, _, rfl⟩ := hr
    rfl
  · refine ⟨queryRequest (env.NOTION_TOKEN.getD "") (env.DATABASE_ID.getD "") .undefined, ?_, rfl⟩
    simp [List.getElem?_range, cursorBefore]
  · intro k hk
    refine ⟨queryRequest (env.NOTION_TOKEN.getD "") (env.DATABASE_ID.getD "")
      (nextCursor (pages k)), ?_, rfl⟩
    simp [List.getElem?_range, hk, cursorBefore]

theorem pagination_requests_witness :
    ∃ run, handler v8 plainEnv getReq twoPageUpstream 2 = some run ∧
      run.requests.length = 2 ∧
      (∀ r ∈ run.requests, r.page_size = 100) ∧
      (∃ r, run.requests[0]? = some r ∧ r.start_cursor = none) ∧
      (∀ k, k + 1 < 2 → ∃ r, run.requests[k + 1]? = some r ∧
        r.start_cursor =
          if truthy (nextCursor (twoPages k)) then some (nextCursor (twoPages k)) else none) :=
  pagination_requests v8 plainEnv getReq twoPageUpstream twoPages 2 2 rfl (by decide)
    (by decide)
    (fun k hk => by
      have hk' : k = 0 ∨ k = 1 := by omega
      rcases hk' with rfl | rfl <;> exact ⟨rfl, rfl⟩)
    (fun k hk => by
      have hk' : k = 0 := by omega
      subst hk'
      rfl)
    rfl

/-- C4, the claim as stated, fails: when the first call is answered with a success status and
a body that reports `has_more` but has the number 5 for `results`, and the second call would
be answered 429, line 74 raises on the first page. The handler issues one request, not two,
and answers 500 with the error `"Server error"`, not `"Notion query failed"`. -/
theorem upstream_failure_counterexample :
    ∃ run members,
      handler v8 plainEnv getReq unreadableThenFailing 2 = some run ∧
      pageData (unreadableThenFailing 0) = some unreadablePage ∧
      hasMore unreadablePage = true ∧
      run.requests.length = 1 ∧
      run.response.status = 500 ∧
      run.response.body = some (.obj members) ∧
      lookupOwn "error" members = some (.str "Server error") ∧
      lookupOwn "status" members = none :=
  ⟨_, _, rfl, rfl, rfl, rfl, rfl, rfl, rfl, rfl⟩

/-- C4 (amended): for a GET request that passes the key check with both credentials set, when
the remote service answers the first `k - 1` calls with a success status and a body that
parses, that the handler can tally without an exception (the body is not `null`, its `results`
is falsy, an array or a string, and under the configured property name the status name of
every record converts to a property key) and that reports more pages, and answers the `k`-th
call with a failure status `c` and body text `t`, the handler (given fuel for `k` iterations)
issues exactly `k` requests and answers 500 with the body
`{error: "Notion query failed", status: c, detail: t}`, which has no `counts` and no `total`
member. -/
theorem upstream_failure (rt : Runtime) (env : Env) (req : Req)
    (upstream : Nat → FetchOutcome) (pages : Nat → Json) (k fuel : Nat)
    (notionRes : NotionRes) (c : Nat) (t : String)
    (hloop : entersLoop env req = true) (hk : 1 ≤ k) (hfuel : k ≤ fuel)
    (hpages : ∀ j, j + 1 < k → pageData (upstream j) = some (pages j) ∧
      readablePage rt (statusProp env) (pages j) = true ∧ hasMore (pages j) = true)
    (hfail : upstream (k - 1) = .resolved notionRes) (hok : notionRes.ok = false)
    (hstatus : notionRes.status = c) (htext : notionRes.text = some t) :
    ∃ run, handler rt env req upstream fuel = some run ∧
      run.requests.length = k ∧
      run.response.status = 500 ∧
      run.response.body =
        some (.obj [("error", .str "Notion query failed"), ("status", .num c),
                    ("detail", .str t)]) ∧
      (∀ members, run.response.body = some (.obj members) →
        lookupOwn "counts" members = none ∧ lookupOwn "total" members = none) := by
  obtain ⟨n, rfl⟩ : ∃ n, k = n + 1 := ⟨k - 1, by omega⟩
  obtain ⟨extra, rfl⟩ : ∃ extra, fuel = n + 1 + extra := ⟨fuel - (n + 1), by omega⟩
  have hp := paginate_fails rt upstream (env.NOTION_TOKEN.getD "") (env.DATABASE_ID.getD "")
    (statusProp env) pages n extra notionRes (fun j hj => hpages j (by omega)) hfail hok
  rw [handler_entersLoop rt env req upstream _ hloop, hp]
  refine ⟨_, rfl, by simp, rfl, ?_, ?_⟩
  · simp [respond, hstatus, htext]
  · intro members hm
    simp only [Option.map_some', respond, Option.some.injEq, Json.obj.injEq] at hm
    subst hm
    exact ⟨rfl, rfl⟩

theorem upstream_failure_witness :
    ∃ run, handler v8 plainEnv getReq failingSecondCall 2 = some run ∧
      run.requests.length = 2 ∧
      run.response.status = 500 ∧
      run.response.body =
        some (.obj [("error", .str "Notion query failed"), ("status", .num 429),
                    ("detail", .str "rate limited")]) ∧
      (∀ members, run.response.body = some (.obj members) →
        lookupOwn "counts" members = none ∧ lookupOwn "total" members = none) :=
  upstream_failure v8 plainEnv getReq failingSecondCall twoPages 2 2
    { ok := false, status := 429, text := some "rate limited", json := .ok .null }
    429 "rate limited" rfl (by decide) (by decide)
    (fun j hj => by
      have hj' : j = 0 := by omega
      subst hj'
      exact ⟨rfl, rfl, rfl⟩)
    rfl rfl rfl rfl

/-! ## Resolution of the status label -/

/-- C8, the claim as stated, fails: for a record whose status sub-value is present with the
name `""`, the rule of the claim yields that name, the handler yields `"Unknown"`. -/
theorem status_resolution_counterexample :
    claimedStatusName "Status" emptyNameRecord = .json (.str "") ∧
    statusNameOf "Status" emptyNameRecord = .json (.str "Unknown") :=
  ⟨rfl, rfl⟩

/-- C8 (amended): the property name is `STATUS_PROP`, or `"Status"` when that is unset or
empty. The label the handler resolves for a record is the `name` of the status sub-value of
`properties[P]` whenever that name is truthy (present and not empty); otherwise the `name` of
the select sub-value whenever that is truthy; otherwise the literal `"Unknown"`, also when the
record has no `properties` or no property `P`. Resolution is a total function, and its result
is never falsy. -/
theorem status_resolution (env : Env) (page : Json) :
    ((env.STATUS_PROP = none ∨ env.STATUS_PROP = some "") → statusProp env = "Status") ∧
    (∀ P, P ≠ "" → env.STATUS_PROP = some P → statusProp env = P) ∧
    (truthy (getProp (getProp (getProp (getProp (.json page) "properties") (statusProp env))
        "status") "name") = true →
      statusNameOf (statusProp env) page =
        getProp (getProp (getProp (getProp (.json page) "properties") (statusProp env))
          "status") "name") ∧
    (truthy (getProp (getProp (getProp (getProp (.json page) "properties") (statusProp env))
        "status") "name") = false →
      truthy (getProp (getProp (getProp (getProp (.json page) "properties") (statusProp env))
        "select") "name") = true →
      statusNameOf (statusProp env) page =
        getProp (getProp (getProp (getProp (.json page) "properties") (statusProp env))
          "select") "name") ∧
    (truthy (getProp (getProp (getProp (getProp (.json page) "properties") (statusProp env))
        "status") "name") = false →
      truthy (getProp (getProp (getProp (getProp (.json page) "properties") (statusProp env))
        "select") "name") = false →
      statusNameOf (statusProp env) page = .json (.str "Unknown")) ∧
    (getProp (.json page) "properties" = .undefined →
      statusNameOf (statusProp env) page = .json (.str "Unknown")) ∧
    (getProp (getProp (.json page) "properties") (statusProp env) = .undefined →
      statusNameOf (statusProp env) page = .json (.str "Unknown")) ∧
    truthy (statusNameOf (statusProp env) page) = true := by
  refine ⟨?_, ?_, ?_, ?_, ?_, ?_, ?_, ?_⟩
  · rintro (h | h) <;> simp [statusProp, isSet, h]
  · intro P hP h
    simp [statusProp, isSet, h, hP]
  · intro h
    simp [statusNameOf, jsOr, h]
  · intro h1 h2
    simp [statusNameOf, jsOr, h1, h2]
  · intro h1 h2
    simp [statusNameOf, jsOr, h1, h2]
  · intro h
    simp only [statusNameOf, h]
    rfl
  · intro h
    simp only [statusNameOf, h]
    rfl
  · have hor : ∀ a b : JsVal, truthy (jsOr a b) = (truthy a || truthy b) := by
      intro a b
      unfold jsOr
      cases h : truthy a <;> simp [h]
    rw [statusNameOf, hor, hor]
    simp [truthy]

/-! ## The tally on inherited names -/

/-- C1, on a failing input: one page with a record named `Queue` and a record named
`constructor` is answered 200 with `Queue` counted once and a `total` that is the string
`"1function Object() { [native code] }1"`, not the sum 1 of the five counts. -/
theorem total_not_sum_on_inherited_name :
    handler v8 plainEnv getReq
        (fun _ => okPage (queryResult [statusRecord "Queue", statusRecord "constructor"]
          false .null)) 1 =
      some { response :=
               { status := 200, headers := corsHeaders ++ [cacheHeader],
                 body := some (.obj
                   [("counts", .obj [("Queue", .num 1), ("In Progress", .num 0),
                      ("Past Due", .num 0), ("Blocked", .num 0), ("Completed", .num 0),
                      ("constructor", .str "function Object() { [native code] }1")]),
                    ("total", .str "1function Object() { [native code] }1"),
                    ("updatedAt", .str "2024-01-01T00:00:00.000Z")]) },
             requests := [queryRequest "secret_token" "db1" .undefined] } :=
  rfl

/-- C2, on a failing input: a record named `toString`, which is not in the vocabulary, adds
the key `toString` to `counts` and turns `total` into a string. -/
theorem extra_key_on_inherited_name :
    ∃ run counts total,
      handler v8 plainEnv getReq
        (fun _ => okPage (queryResult [statusRecord "toString"] false .null)) 1 = some run ∧
      run.response.status = 200 ∧
      run.response.body =
        some (.obj [("counts", .obj counts), ("total", .str total),
                    ("updatedAt", .str "2024-01-01T00:00:00.000Z")]) ∧
      counts.map Prod.fst =
        ["Queue", "In Progress", "Past Due", "Blocked", "Completed", "toString"] ∧
      total = "0function toString() { [native code] }1" :=
  ⟨_, _, _, rfl, rfl, rfl, rfl, rfl⟩

/-! ## The tally away from inherited names -/

theorem tally_countsOf (rt : Runtime) (c : String → Nat) (k : String)
    (hk : k ∉ objectProtoKeys) :
    (if isDefined (countsOf c) k then increment rt (countsOf c) k else countsOf c) =
      countsOf fun s => if s = k then c s + 1 else c s := by
  have hk' : decide (k ∈ objectProtoKeys) = false := by simpa using hk
  by_cases h1 : "Queue" = k
  · subst h1
    simp [countsOf, STATUSES, isDefined, increment, lookupOwn, updateOwn, jsAdd]
  by_cases h2 : "In Progress" = k
  · subst h2
    simp [countsOf, STATUSES, isDefined, increment, lookupOwn, updateOwn, jsAdd]
  by_cases h3 : "Past Due" = k
  · subst h3
    simp [countsOf, STATUSES, isDefined, increment, lookupOwn, updateOwn, jsAdd]
  by_cases h4 : "Blocked" = k
  · subst h4
    simp [countsOf, STATUSES, isDefined, increment, lookupOwn, updateOwn, jsAdd]
  by_cases h5 : "Completed" = k
  · subst h5
    simp [countsOf, STATUSES, isDefined, increment, lookupOwn, updateOwn, jsAdd]
  simp [countsOf, STATUSES, isDefined, lookupOwn, h1, h2, h3, h4, h5, hk']

theorem foldl_countsOf (rt : Runtime) (STATUS_PROP : String) (records : List Json)
    (c : String → Nat)
    (h : ∀ page ∈ records, ∀ k, labelOf rt STATUS_PROP page = some k → k ∉ objectProtoKeys) :
    records.foldl
        (fun counts page =>
          match labelOf rt STATUS_PROP page with
          | some k => if isDefined counts k then increment rt counts k else counts
          | none => counts)
        (countsOf c) =
      countsOf fun s => c s + countLabel rt STATUS_PROP records s := by
  induction records generalizing c with
  | nil => simp [countLabel]
  | cons page rest ih =>
    have hrest : ∀ q ∈ rest, ∀ k, labelOf rt STATUS_PROP q = some k → k ∉ objectProtoKeys :=
      fun q hq => h q (List.mem_cons_of_mem _ hq)
    rw [List.foldl_cons]
    cases hl : labelOf rt STATUS_PROP page with
    | none =>
      simp only [ih c hrest]
      congr 1
      funext s
      simp [countLabel, List.countP_cons, hl]
    | some k =>
      simp only [tally_countsOf rt c k (h page (List.mem_cons_self _ _) k hl), ih _ hrest]
      congr 1
      funext s
      by_cases hs : s = k
      · subst hs
        simp [countLabel, List.countP_cons, hl]
        omega
      · have hs' : k ≠ s := fun e => hs e.symm
        simp [countLabel, List.countP_cons, hl, hs, hs']

theorem recordsThrough_succ (pages : Nat → Json) (n : Nat) :
    recordsThrough pages (n + 1) = recordsThrough pages n ++ recordsOf (pages n) := by
  simp [recordsThrough, List.range_succ, List.flatMap_append]

theorem countsAfter_eq_countsOf (rt : Runtime) (STATUS_PROP : String) (pages : Nat → Json)
    (n : Nat)
    (h : ∀ page ∈ recordsThrough pages n, ∀ k,
      labelOf rt STATUS_PROP page = some k → k ∉ objectProtoKeys) :
    countsAfter rt STATUS_PROP pages n =
      countsOf fun s => countLabel rt STATUS_PROP (recordsThrough pages n) s := by
  induction n with
  | zero => rfl
  | succ n ih =>
    rw [recordsThrough_succ] at h
    have h1 := ih fun page hp => h page (List.mem_append_left _ hp)
    rw [countsAfter, h1, talliedPage,
      foldl_countsOf rt STATUS_PROP _ _ fun page hp => h page (List.mem_append_right _ hp)]
    congr 1
    funext s
    simp [countLabel, recordsThrough_succ, List.countP_append]

theorem totalOf_countsOf (c : String → Nat) :
    totalOf (countsOf c) = .num ((STATUSES.map c).sum) := by
  simp [totalOf, countsOf, STATUSES, jsAdd]
  omega

theorem countsJson_countsOf (c : String → Nat) :
    countsJson (countsOf c) = .obj (STATUSES.map fun s => (s, Json.num (c s))) := by
  simp [countsJson, countsOf, CountVal.toJson]

/-- The five counts add up to the number of records counted under a label of the
vocabulary. -/
theorem sum_countLabel (rt : Runtime) (STATUS_PROP : String) (records : List Json) :
    (STATUSES.map fun s => countLabel rt STATUS_PROP records s).sum =
      records.countP (inVocabulary rt STATUS_PROP) := by
  induction records with
  | nil => simp [countLabel, STATUSES]
  | cons page rest ih =>
    simp only [STATUSES, List.map_cons, List.map_nil, List.sum_cons, List.sum_nil] at ih ⊢
    simp only [countLabel, List.countP_cons] at ih ⊢
    rw [← ih]
    cases hl : labelOf rt STATUS_PROP page with
    | none => simp [inVocabulary, hl]
    | some k =>
      by_cases h1 : k = "Queue"
      · subst h1; simp [inVocabulary, hl, STATUSES]; omega
      by_cases h2 : k = "In Progress"
      · subst h2; simp [inVocabulary, hl, STATUSES]; omega
      by_cases h3 : k = "Past Due"
      · subst h3; simp [inVocabulary, hl, STATUSES]; omega
      by_cases h4 : k = "Blocked"
      · subst h4; simp [inVocabulary, hl, STATUSES]; omega
      by_cases h5 : k = "Completed"
      · subst h5; simp [inVocabulary, hl, STATUSES]; omega
      simp [inVocabulary, hl, STATUSES, h1, h2, h3, h4, h5]

/-- X1: the tally is right away from inherited names. When the remote service answers the first
`N` calls with readable pages, of which only the `N`-th reports no more pages, and no record is
counted under a name of `Object.prototype`, the handler answers 200; `counts` has exactly the
five labels of the vocabulary as keys, in order, each with the number of records of pages 1
to `N` counted under it; `total` is their sum, which is the number of records counted under a
label of the vocabulary. -/
theorem tally_correct (rt : Runtime) (env : Env) (req : Req)
    (upstream : Nat → FetchOutcome) (pages : Nat → Json) (N fuel : Nat)
    (hloop : entersLoop env req = true) (hN : 1 ≤ N) (hfuel : N ≤ fuel)
    (hpages : ∀ k, k < N → pageData (upstream k) = some (pages k) ∧
      readablePage rt (statusProp env) (pages k) = true)
    (hmore : ∀ k, k + 1 < N → hasMore (pages k) = true)
    (hlast : hasMore (pages (N - 1)) = false)
    (hnames : (recordsThrough pages N).all
      (fun page => !inheritedLabel rt (statusProp env) page) = true) :
    ∃ run, handler rt env req upstream fuel = some run ∧
      run.response.status = 200 ∧
      run.response.body =
        some (.obj
          [("counts", .obj (STATUSES.map fun s =>
              (s, Json.num (countLabel rt (statusProp env) (recordsThrough pages N) s)))),
           ("total", .num ((STATUSES.map fun s =>
              countLabel rt (statusProp env) (recordsThrough pages N) s).sum)),
           ("updatedAt", .str rt.now)]) ∧
      (STATUSES.map fun s => countLabel rt (statusProp env) (recordsThrough pages N) s).sum =
        (recordsThrough pages N).countP (inVocabulary rt (statusProp env)) := by
  obtain ⟨n, rfl⟩ : ∃ n, N = n + 1 := ⟨N - 1, by omega⟩
  obtain ⟨extra, rfl⟩ : ∃ extra, fuel = n + 1 + extra := ⟨fuel - (n + 1), by omega⟩
  have hp := paginate_complete rt upstream (env.NOTION_TOKEN.getD "") (env.DATABASE_ID.getD "")
    (statusProp env) pages n extra hpages (fun k hk => hmore k (by omega)) hlast
  have hnames' : ∀ page ∈ recordsThrough pages (n + 1), ∀ k,
      labelOf rt (statusProp env) page = some k → k ∉ objectProtoKeys := by
    intro page hmem k hk
    have := List.all_eq_true.1 hnames page hmem
    simpa [inheritedLabel, hk] using this
  rw [handler_entersLoop rt env req upstream _ hloop, hp]
  refine ⟨_, rfl, rfl, ?_, sum_countLabel rt (statusProp env) _⟩
  simp only [Option.map_some', respond,
    countsAfter_eq_countsOf rt (statusProp env) pages (n + 1) hnames', totalOf_countsOf,
    countsJson_countsOf, CountVal.toJson]

theorem tally_correct_witness :
    ∃ run, handler v8 plainEnv getReq (fun _ => okPage scenarioPage) 1 = some run ∧
      run.response.status = 200 ∧
      run.response.body =
        some (.obj
          [("counts", .obj [("Queue", .num 1), ("In Progress", .num 0), ("Past Due", .num 0),
              ("Blocked", .num 0), ("Completed", .num 2)]),
           ("total", .num 3),
           ("updatedAt", .str "2024-01-01T00:00:00.000Z")]) :=
  have h := tally_correct v8 plainEnv getReq (fun _ => okPage scenarioPage)
    (fun _ => scenarioPage) 1 1 rfl (by decide) (by decide) (fun _ _ => ⟨rfl, rfl⟩)
    (fun k hk => absurd hk (by omega)) rfl rfl
  match h with
  | ⟨run, hrun, hstatus, hbody, _⟩ => ⟨run, hrun, hstatus, hbody⟩

/-! ## Fuel and the initial tally -/

theorem paginate_fuel_succ (rt : Runtime) (upstream : Nat → FetchOutcome)
    (NOTION_TOKEN DATABASE_ID STATUS_PROP : String) (fuel : Nat) :
    ∀ (i : Nat) (cursor : JsVal) (counts : Counts) (out : LoopResult × List FetchRequest),
      paginate rt upstream NOTION_TOKEN DATABASE_ID STATUS_PROP fuel i cursor counts = some out →
      paginate rt upstream NOTION_TOKEN DATABASE_ID STATUS_PROP (fuel + 1) i cursor counts =
        some out := by
  induction fuel with
  | zero =>
    intro i cursor counts out h
    simp [paginate] at h
  | succ fuel ih =>
    intro i cursor counts out h
    rw [paginate] at h ⊢
    cases hu : upstream i with
    | rejected err => simpa [hu] using h
    | resolved notionRes =>
      simp only [hu] at h ⊢
      cases hok : notionRes.ok with
      | false => simpa [hok] using h
      | true =>
        simp only [hok, Bool.not_true, Bool.false_eq_true, if_false] at h ⊢
        cases hj : notionRes.json with
        | error err => simpa [hj] using h
        | ok data =>
          simp only [hj] at h ⊢
          cases ht : tallyPage rt STATUS_PROP data counts with
          | error err => simpa [ht] using h
          | ok counts' =>
            simp only [ht] at h ⊢
            cases hm : truthy (getProp (.json data) "has_more") with
            | false => simpa [hm] using h
            | true =>
              simp only [hm, Bool.not_true, Bool.false_eq_true, if_false] at h ⊢
              cases hp : paginate rt upstream NOTION_TOKEN DATABASE_ID STATUS_PROP fuel (i + 1)
                  (getProp (.json data) "next_cursor") counts' with
              | none => simp [hp] at h
              | some inner =>
                rw [ih (i + 1) _ counts' inner hp]
                simpa [hp] using h

theorem handler_fuel_succ (rt : Runtime) (env : Env) (req : Req)
    (upstream : Nat → FetchOutcome) (fuel : Nat) (run : Run)
    (h : handler rt env req upstream fuel = some run) :
    handler rt env req upstream (fuel + 1) = some run := by
  simp only [handler] at h ⊢
  split_ifs at h ⊢ <;> try exact h
  cases hp : paginate rt upstream (env.NOTION_TOKEN.getD "") (env.DATABASE_ID.getD "")
      (statusProp env) fuel 0 .undefined initialCounts with
  | none => simp [hp] at h
  | some out =>
    rw [paginate_fuel_succ rt upstream _ _ _ fuel 0 _ _ out hp]
    simpa [hp] using h

/-- X2: fuel only bounds the loop. A run that terminates with some fuel terminates with the
same response and the same requests with any larger fuel. -/
theorem handler_fuel_mono (rt : Runtime) (env : Env) (req : Req)
    (upstream : Nat → FetchOutcome) (fuel more : Nat) (run : Run)
    (h : handler rt env req upstream fuel = some run) (hle : fuel ≤ more) :
    handler rt env req upstream more = some run := by
  obtain ⟨d, rfl⟩ : ∃ d, more = fuel + d := ⟨more - fuel, by omega⟩
  clear hle
  induction d with
  | zero => exact h
  | succ d ih => exact handler_fuel_succ rt env req upstream (fuel + d) run ih

theorem handler_fuel_mono_witness :
    handler v8 plainEnv getReq twoPageUpstream 7 =
      handler v8 plainEnv getReq twoPageUpstream 2 :=
  handler_fuel_mono v8 plainEnv getReq twoPageUpstream 2 7 _ rfl (by decide)

/-- X3: before any record is processed every label of the vocabulary is a key of `counts`
with the value 0, and `counts` has no other key. -/
theorem initial_counts_zero :
    (∀ s ∈ STATUSES, lookupOwn s initialCounts = some (.num 0)) ∧
    initialCounts.map Prod.fst = STATUSES := by
  decide

end NotionCounts
